import Mathlib

/-!
Verification of the STUSB4500 sigrok protocol decoder (`pd.py`).

The decoder consumes already-parsed I2C bus events and emits categorized,
time-stamped labels.  We embed the `Decoder` class shallowly: its mutable
attributes become the fields of `DecState`, each method becomes a pure
function, and `decode` becomes a step function
`decode : DecState → Event → Option (DecState × List Ann)` where `none`
models a Python exception escaping the call (the only reachable one is the
`TypeError` raised by `'%02X' % None` / `None + 1` when a data byte is
handled while `self.reg` is `None`).
-/

namespace STUSB4500

/-- The five values ever assigned to the Python string attribute
`self.state` (`'IDLE'`, `'GET SLAVE ADDR'`, `'GET REG ADDR'`,
`'WRITE REGS'`, `'READ REGS'`).  The source only compares the attribute
against these five literals, so a closed enumeration is observationally
identical to the string tag. -/
inductive Phase where
  | IDLE
  | GET_SLAVE_ADDR
  | GET_REG_ADDR
  | WRITE_REGS
  | READ_REGS
  deriving Repr, DecidableEq

/-- The `cmd` part of the `data` argument of `Decoder.decode`, together
with its payload (`databyte`): an integer for address and data commands,
a list of `[bitvalue, ss, es]` triples for `'BITS'`, and nothing for the
bus conditions. -/
inductive Cmd where
  | START
  | STOP
  | ACK
  | NACK
  | ADDRESS_WRITE (b : Nat)
  | ADDRESS_READ (b : Nat)
  | DATA_WRITE (b : Nat)
  | DATA_READ (b : Nat)
  | BITS (spans : List (Nat × Nat × Nat))
  deriving Repr, DecidableEq

/-- One call to `Decoder.decode (ss, es, data)`: the sample span of the
packet plus the command. -/
structure Event where
  ss : Nat
  es : Nat
  cmd : Cmd
  deriving Repr, DecidableEq

/-- One record handed to the sink by `self.put(ss, es, self.out_ann,
[cls, texts])`: a sample span, the numeric class
(`ANN_ADDRESS` … `ANN_ERROR`) and the list of text variants. -/
structure Ann where
  ss : Nat
  es : Nat
  cls : Nat
  texts : List String
  deriving Repr, DecidableEq

def ANN_ADDRESS : Nat := 0
def ANN_REGISTER : Nat := 1
def ANN_WARNING : Nat := 2
def ANN_ERROR : Nat := 3

/-- Uppercase hex digit, as used by Python `%X` formatting. -/
def hexDigit (n : Nat) : Char :=
  if n < 10 then Char.ofNat (48 + n) else Char.ofNat (55 + n)

/-- Fuel-based accumulator for uppercase hex rendering (structural
recursion so that concrete evaluation reduces in the kernel; the fuel
`n + 1` is always sufficient since the argument shrinks by `/ 16`). -/
def toHexAux : Nat → Nat → List Char → List Char
  | 0, _, acc => acc
  | fuel + 1, n, acc =>
      if n < 16 then hexDigit n :: acc
      else toHexAux fuel (n / 16) (hexDigit (n % 16) :: acc)

/-- Python `'%02X' % n` for a nonnegative `n`: uppercase hex, left-padded
with `0` to at least two digits. -/
def hex2 (n : Nat) : String :=
  if n < 16 then String.mk ['0', hexDigit n]
  else String.mk (toHexAux (n + 1) n [])

/-- The module-level `REGs` dictionary: register address to mnemonic.
Each Python value is a pair `(name, None)` whose second component is
never read, so only the name is kept. -/
def REGs : List (Nat × String) := [
  (0x06, "BCD_TYPEC_REV_LOW"),
  (0x07, "BCD_TYPEC_REV_HIGH"),
  (0x08, "BCD_USBPD_REV_LOW"),
  (0x09, "BCD_USBPD_REV_HIGH"),
  (0x0A, "DEVICE_CAPAB_HIGH"),
  (0x0B, "ALERT_STATUS_1"),
  (0x0C, "ALERT_STATUS_1_MASK"),
  (0x0D, "PORT_STATUS_0"),
  (0x0E, "PORT_STATUS_1"),
  (0x0F, "TYPEC_MONITORING_STATUS_0"),
  (0x10, "TYPEC_MONITORING_STATUS_1"),
  (0x11, "CC_STATUS"),
  (0x12, "CC_HW_FAULT_STATUS_0"),
  (0x13, "CC_HW_FAULT_STATUS_1"),
  (0x14, "PD_TYPEC_STATUS"),
  (0x15, "TYPEC_STATUS"),
  (0x16, "PRT_STATUS"),
  (0x1A, "PD_COMMAND_CTRL"),
  (0x20, "MONITORING_CTRL_0"),
  (0x22, "MONITORING_CTRL_2"),
  (0x23, "RESET_CTRL"),
  (0x25, "VBUS_DISCHARGE_TIME_CTRL"),
  (0x26, "VBUS_DISCHARGE_CTRL"),
  (0x27, "VBUS_CTRL"),
  (0x29, "PE_FSM"),
  (0x2D, "GPIO_SW_GPIO"),
  (0x2F, "Device_ID"),
  (0x31, "RX_HEADER_LOW"),
  (0x32, "RX_HEADER_HIGH"),
  (0x33, "RX_DATA_OBJ1_0"),
  (0x34, "RX_DATA_OBJ1_1"),
  (0x35, "RX_DATA_OBJ1_2"),
  (0x36, "RX_DATA_OBJ1_3"),
  (0x37, "RX_DATA_OBJ2_0"),
  (0x38, "RX_DATA_OBJ2_1"),
  (0x39, "RX_DATA_OBJ2_2"),
  (0x3A, "RX_DATA_OBJ2_3"),
  (0x3B, "RX_DATA_OBJ3_0"),
  (0x3C, "RX_DATA_OBJ3_1"),
  (0x3D, "RX_DATA_OBJ3_2"),
  (0x3E, "RX_DATA_OBJ3_3"),
  (0x3F, "RX_DATA_OBJ4_0"),
  (0x40, "RX_DATA_OBJ4_1"),
  (0x41, "RX_DATA_OBJ4_2"),
  (0x42, "RX_DATA_OBJ4_3"),
  (0x43, "RX_DATA_OBJ5_0"),
  (0x44, "RX_DATA_OBJ5_1"),
  (0x45, "RX_DATA_OBJ5_2"),
  (0x46, "RX_DATA_OBJ5_3"),
  (0x47, "RX_DATA_OBJ6_0"),
  (0x48, "RX_DATA_OBJ6_1"),
  (0x49, "RX_DATA_OBJ6_2"),
  (0x4A, "RX_DATA_OBJ6_3"),
  (0x4B, "RX_DATA_OBJ7_0"),
  (0x4C, "RX_DATA_OBJ7_1"),
  (0x4D, "RX_DATA_OBJ7_2"),
  (0x4E, "RX_DATA_OBJ7_3"),
  (0x51, "TX_HEADER_LOW"),
  (0x52, "TX_HEADER_HIGH"),
  (0x70, "DPM_PDO_NUMB"),
  (0x85, "DPM_SNK_PDO1_0"),
  (0x86, "DPM_SNK_PDO1_1"),
  (0x87, "DPM_SNK_PDO1_2"),
  (0x88, "DPM_SNK_PDO1_3"),
  (0x89, "DPM_SNK_PDO2_0"),
  (0x8A, "DPM_SNK_PDO2_1"),
  (0x8B, "DPM_SNK_PDO2_2"),
  (0x8C, "DPM_SNK_PDO2_3"),
  (0x8D, "DPM_SNK_PDO3_0"),
  (0x8E, "DPM_SNK_PDO3_1"),
  (0x8F, "DPM_SNK_PDO3_2"),
  (0x90, "DPM_SNK_PDO3_3"),
  (0x91, "RDO_REG_STATUS_0"),
  (0x92, "RDO_REG_STATUS_1"),
  (0x93, "RDO_REG_STATUS_2"),
  (0x94, "RDO_REG_STATUS_3")]

/-- Directory lookup, as in `r in REGs` / `REGs[r][0]`. -/
def lookupReg (r : Nat) : Option String :=
  List.lookup r REGs

/-- The mutable attributes of the `Decoder` instance.  `state`, `reg`,
`write` and `bits` are (re)initialized by `reset`; `needACK`, `ss`, `es`
and `ss_block` are left unset by `reset` in Python but are each written
before their first read on every event path from a fresh reset (`needACK`
at the address match, `ss`/`es` at the top of every non-`BITS` call,
`ss_block` on `START`), so giving them inert defaults is observationally
equivalent.  `address` is the configured option, set once in `start`. -/
structure DecState where
  state : Phase
  reg : Option Nat
  write : Option Nat
  bits : List (Nat × Nat × Nat)
  needACK : Bool
  ss : Nat
  es : Nat
  ss_block : Nat
  address : Nat
  deriving Repr, DecidableEq

/-- Source `Decoder.reset`: back to `'IDLE'`, clear the register pointer, the
unused `write` attribute and the cached bit spans. -/
def reset (s : DecState) : DecState :=
  { s with state := Phase.IDLE, reg := none, write := none, bits := [] }

/-- A freshly constructed and started decoder (`__init__` calls `reset`;
`start` resolves the address option, one of 0x28/0x29/0x2A/0x2B). -/
def initState (address : Nat) : DecState :=
  reset { state := Phase.IDLE, reg := none, write := none, bits := [],
          needACK := false, ss := 0, es := 0, ss_block := 0,
          address := address }

/-- Source `Decoder.putx`: annotate the span of the current packet. -/
def putx (s : DecState) (cls : Nat) (texts : List String) : Ann :=
  { ss := s.ss, es := s.es, cls := cls, texts := texts }

/-- Source `Decoder.handle_ACK`: consume an expected acknowledgement silently,
or annotate an unexpected one (source text `'Unxpected ACK'`) and report
failure.  Returns the updated state, the emitted records and the boolean
result. -/
def handle_ACK (s : DecState) : DecState × List Ann × Bool :=
  if s.needACK = true then ({ s with needACK := false }, [], true)
  else (s, [putx s ANN_ERROR ["Unxpected ACK"]], false)

/-- Source `Decoder.is_correct_chip`: shift out the R/W bit, compare with the
configured address, and annotate over `ss_block .. es` either way. -/
def is_correct_chip (s : DecState) (addr0 : Nat) : Ann × Bool :=
  let addr := addr0 >>> 1
  if addr = s.address then
    ({ ss := s.ss_block, es := s.es, cls := ANN_ADDRESS,
       texts := ["Address (slave 0x" ++ hex2 addr ++ ")"] }, true)
  else
    ({ ss := s.ss_block, es := s.es, cls := ANN_ADDRESS,
       texts := ["Ignoring wrong addr (slave 0x" ++ hex2 addr ++ ")"] }, false)

/-- Source `Decoder.setReg`: set the register pointer and annotate the
selection (note: via `putx`, i.e. over the byte packet's own span). -/
def setReg (s : DecState) (r : Nat) : DecState × List Ann :=
  let s1 := { s with reg := some r }
  match lookupReg r with
  | some name => (s1, [putx s1 ANN_REGISTER ["Register " ++ name, name]])
  | none => (s1, [putx s1 ANN_REGISTER ["Unknown Register " ++ hex2 r]])

/-- Source `Decoder.handle_write_reg`: annotate a write to the current register
and auto-increment the pointer.  With `self.reg = None` the `else` branch
raises `TypeError` while formatting `'%02X' % None` (and `self.reg += 1`
would raise as well), modelled by `none`.  The data byte `b` is accepted
but unused, as in the source. -/
def handle_write_reg (s : DecState) (_b : Nat) : Option (DecState × List Ann) :=
  match s.reg with
  | some r =>
      let ann :=
        match lookupReg r with
        | some name => putx s ANN_REGISTER ["Write " ++ name, name]
        | none => putx s ANN_REGISTER ["Write Unknown reg " ++ hex2 r, "Unknown"]
      some ({ s with reg := some (r + 1) }, [ann])
  | none => none

/-- Source `Decoder.handle_read_reg`: same as `handle_write_reg` but for reads. -/
def handle_read_reg (s : DecState) (_b : Nat) : Option (DecState × List Ann) :=
  match s.reg with
  | some r =>
      let ann :=
        match lookupReg r with
        | some name => putx s ANN_REGISTER ["Read " ++ name, name]
        | none => putx s ANN_REGISTER ["Read Unknown reg " ++ hex2 r, "Unknown"]
      some ({ s with reg := some (r + 1) }, [ann])
  | none => none

/-- The source command string, used in the `'Expected DATA WRITE (got '
 + cmd + ')'` error text. -/
def cmdName : Cmd → String
  | Cmd.START => "START"
  | Cmd.STOP => "STOP"
  | Cmd.ACK => "ACK"
  | Cmd.NACK => "NACK"
  | Cmd.ADDRESS_WRITE _ => "ADDRESS WRITE"
  | Cmd.ADDRESS_READ _ => "ADDRESS READ"
  | Cmd.DATA_WRITE _ => "DATA WRITE"
  | Cmd.DATA_READ _ => "DATA READ"
  | Cmd.BITS _ => "BITS"

/-- Source `Decoder.decode`: one event.  `'BITS'` packets are cached and the
call returns before `self.ss, self.es` are updated; every other packet
first stores its span, then runs the state machine.  `none` models a
Python exception escaping the call. -/
def decode (s0 : DecState) (ev : Event) : Option (DecState × List Ann) :=
  match ev.cmd with
  | Cmd.BITS spans => some ({ s0 with bits := spans }, [])
  | c =>
    let s := { s0 with ss := ev.ss, es := ev.es }
    match s.state, c with
    | Phase.IDLE, Cmd.START =>
        some ({ s with state := Phase.GET_SLAVE_ADDR, ss_block := ev.ss }, [])
    | Phase.IDLE, _ => some (s, [])
    | Phase.GET_SLAVE_ADDR, Cmd.ADDRESS_WRITE b =>
        match is_correct_chip s b with
        | (ann, true) =>
            some ({ s with needACK := true, state := Phase.GET_REG_ADDR }, [ann])
        | (ann, false) => some ({ s with state := Phase.IDLE }, [ann])
    | Phase.GET_SLAVE_ADDR, Cmd.ADDRESS_READ b =>
        match is_correct_chip s b with
        | (ann, true) =>
            some ({ s with needACK := true, state := Phase.READ_REGS }, [ann])
        | (ann, false) => some ({ s with state := Phase.IDLE }, [ann])
    | Phase.GET_SLAVE_ADDR, _ =>
        some ({ s with state := Phase.IDLE },
              [putx s ANN_ERROR ["Expected READ/WRITE"]])
    | Phase.GET_REG_ADDR, Cmd.ACK =>
        match handle_ACK s with
        | (s1, anns, true) => some (s1, anns)
        | (s1, anns, false) => some ({ s1 with state := Phase.IDLE }, anns)
    | Phase.GET_REG_ADDR, Cmd.DATA_WRITE b =>
        match setReg s b with
        | (s1, anns) =>
            some ({ s1 with state := Phase.WRITE_REGS, needACK := true }, anns)
    | Phase.GET_REG_ADDR, c' =>
        some ({ s with state := Phase.IDLE },
              [putx s ANN_ERROR
                ["Expected DATA WRITE (got " ++ cmdName c' ++ ")", "ERR"]])
    | Phase.WRITE_REGS, Cmd.ACK =>
        match handle_ACK s with
        | (s1, anns, true) => some (s1, anns)
        | (s1, anns, false) => some ({ s1 with state := Phase.IDLE }, anns)
    | Phase.WRITE_REGS, Cmd.DATA_WRITE b =>
        match handle_write_reg s b with
        | none => none
        | some (s1, anns) => some ({ s1 with needACK := true }, anns)
    | Phase.WRITE_REGS, Cmd.STOP =>
        some ({ s with state := Phase.IDLE }, [])
    | Phase.WRITE_REGS, _ =>
        some (s, [putx s ANN_ERROR ["Expected DATA WRITE or STOP", "ERR"]])
    | Phase.READ_REGS, Cmd.ACK =>
        match handle_ACK s with
        | (s1, anns, true) => some (s1, anns)
        | (s1, anns, false) => some ({ s1 with state := Phase.IDLE }, anns)
    | Phase.READ_REGS, Cmd.NACK =>
        some ({ s with state := Phase.IDLE, needACK := false }, [])
    | Phase.READ_REGS, Cmd.DATA_READ b =>
        match handle_read_reg s b with
        | none => none
        | some (s1, anns) => some ({ s1 with needACK := true }, anns)
    | Phase.READ_REGS, Cmd.STOP =>
        some ({ s with state := Phase.IDLE }, [])
    | Phase.READ_REGS, _ =>
        some (s, [putx s ANN_ERROR ["Expected DATA READ or STOP", "ERR"]])

/-- Feed a list of events in order, collecting the emitted records;
`none` as soon as one call raises. -/
def runFrom (s : DecState) : List Event → Option (DecState × List Ann)
  | [] => some (s, [])
  | e :: rest =>
      match decode s e with
      | none => none
      | some (s1, anns) =>
          match runFrom s1 rest with
          | none => none
          | some (s2, anns2) => some (s2, anns ++ anns2)

/-! ### Expected annotation shapes, read off the emitting branches -/

/-- The text variants of a register-select record (`setReg`). -/
def selectTexts (r : Nat) : List String :=
  match lookupReg r with
  | some name => ["Register " ++ name, name]
  | none => ["Unknown Register " ++ hex2 r]

/-- The text variants of a register-write record (`handle_write_reg`). -/
def writeTexts (r : Nat) : List String :=
  match lookupReg r with
  | some name => ["Write " ++ name, name]
  | none => ["Write Unknown reg " ++ hex2 r, "Unknown"]

/-- The text variants of a register-read record (`handle_read_reg`). -/
def readTexts (r : Nat) : List String :=
  match lookupReg r with
  | some name => ["Read " ++ name, name]
  | none => ["Read Unknown reg " ++ hex2 r, "Unknown"]

/-- A burst of data bytes, each followed by an acknowledgement: one
entry `(dss, des, byte, ass, aes)` per byte, carrying the spans of the
byte packet and of its acknowledgement. -/
def burst (mk : Nat → Cmd) : List (Nat × Nat × Nat × Nat × Nat) → List Event
  | [] => []
  | (dss, des, b, ass, aes) :: rest =>
      ⟨dss, des, mk b⟩ :: ⟨ass, aes, Cmd.ACK⟩ :: burst mk rest

/-- The `Register` records a write burst starting at register `r` must
produce: one per byte, over the byte packet's span, for consecutive
registers. -/
def writeAnnsFrom (r : Nat) : List (Nat × Nat × Nat × Nat × Nat) → List Ann
  | [] => []
  | (dss, des, _b, _ass, _aes) :: rest =>
      ⟨dss, des, ANN_REGISTER, writeTexts r⟩ :: writeAnnsFrom (r + 1) rest

/-- Same for a read burst. -/
def readAnnsFrom (r : Nat) : List (Nat × Nat × Nat × Nat × Nat) → List Ann
  | [] => []
  | (dss, des, _b, _ass, _aes) :: rest =>
      ⟨dss, des, ANN_REGISTER, readTexts r⟩ :: readAnnsFrom (r + 1) rest

/-- One-step summary of the register pointer: set by a register-select
data write, bumped by one on a data byte in the write/read phases,
untouched by everything else. -/
def regAfter (st : Phase) (c : Cmd) (old : Option Nat) : Option Nat :=
  match st, c with
  | Phase.GET_REG_ADDR, Cmd.DATA_WRITE b => some b
  | Phase.WRITE_REGS, Cmd.DATA_WRITE _ => old.map (· + 1)
  | Phase.READ_REGS, Cmd.DATA_READ _ => old.map (· + 1)
  | _, _ => old

/-! ### Helper lemmas -/

theorem runFrom_append (l1 l2 : List Event) : ∀ s : DecState,
    runFrom s (l1 ++ l2) =
      match runFrom s l1 with
      | none => none
      | some (s1, a1) =>
          match runFrom s1 l2 with
          | none => none
          | some (s2, a2) => some (s2, a1 ++ a2) := by
  induction l1 with
  | nil =>
      intro s
      simp only [List.nil_append, runFrom]
      cases h : runFrom s l2 with
      | none => rfl
      | some p => cases p with | mk s2 a2 => simp
  | cons e rest ih =>
      intro s
      simp only [List.cons_append, runFrom]
      cases hd : decode s e with
      | none => rfl
      | some p =>
        cases p with
        | mk s1 a1 =>
          dsimp only
          simp only [List.append_eq]
          rw [ih s1]
          cases h1 : runFrom s1 rest with
          | none => simp
          | some q =>
            cases q with
            | mk s2 a2 =>
              dsimp only
              cases h2 : runFrom s2 l2 with
              | none => simp
              | some r2 =>
                cases r2 with | mk s3 a3 => simp [List.append_assoc]

theorem decode_getreg_data (s : DecState) (ss es b : Nat)
    (hst : s.state = Phase.GET_REG_ADDR) :
    decode s ⟨ss, es, Cmd.DATA_WRITE b⟩ =
      some ({ s with ss := ss, es := es, reg := some b,
                     state := Phase.WRITE_REGS, needACK := true },
            [⟨ss, es, ANN_REGISTER, selectTexts b⟩]) := by
  cases hl : lookupReg b <;>
    simp [decode, hst, setReg, putx, selectTexts, hl]

theorem decode_write_data (s : DecState) (ss es b r : Nat)
    (hst : s.state = Phase.WRITE_REGS) (hr : s.reg = some r) :
    decode s ⟨ss, es, Cmd.DATA_WRITE b⟩ =
      some ({ s with ss := ss, es := es, reg := some (r + 1), needACK := true },
            [⟨ss, es, ANN_REGISTER, writeTexts r⟩]) := by
  cases hl : lookupReg r <;>
    simp [decode, hst, hr, handle_write_reg, putx, writeTexts, hl]

theorem decode_read_data (s : DecState) (ss es b r : Nat)
    (hst : s.state = Phase.READ_REGS) (hr : s.reg = some r) :
    decode s ⟨ss, es, Cmd.DATA_READ b⟩ =
      some ({ s with ss := ss, es := es, reg := some (r + 1), needACK := true },
            [⟨ss, es, ANN_REGISTER, readTexts r⟩]) := by
  cases hl : lookupReg r <;>
    simp [decode, hst, hr, handle_read_reg, putx, readTexts, hl]

theorem decode_write_ack (s : DecState) (ss es : Nat)
    (hst : s.state = Phase.WRITE_REGS) (hna : s.needACK = true) :
    decode s ⟨ss, es, Cmd.ACK⟩ =
      some ({ s with ss := ss, es := es, needACK := false }, []) := by
  simp [decode, hst, hna, handle_ACK]

theorem decode_read_ack (s : DecState) (ss es : Nat)
    (hst : s.state = Phase.READ_REGS) (hna : s.needACK = true) :
    decode s ⟨ss, es, Cmd.ACK⟩ =
      some ({ s with ss := ss, es := es, needACK := false }, []) := by
  simp [decode, hst, hna, handle_ACK]

theorem decode_write_stop (s : DecState) (ss es : Nat)
    (hst : s.state = Phase.WRITE_REGS) :
    decode s ⟨ss, es, Cmd.STOP⟩ =
      some ({ s with ss := ss, es := es, state := Phase.IDLE }, []) := by
  simp [decode, hst]

theorem decode_read_nack (s : DecState) (ss es : Nat)
    (hst : s.state = Phase.READ_REGS) :
    decode s ⟨ss, es, Cmd.NACK⟩ =
      some ({ s with ss := ss, es := es, state := Phase.IDLE, needACK := false },
            []) := by
  simp [decode, hst]

theorem writeLoop (bs : List (Nat × Nat × Nat × Nat × Nat)) :
    ∀ (s : DecState) (r : Nat), s.state = Phase.WRITE_REGS → s.reg = some r →
      ∃ s', runFrom s (burst Cmd.DATA_WRITE bs) = some (s', writeAnnsFrom r bs) ∧
        s'.state = Phase.WRITE_REGS ∧ s'.reg = some (r + bs.length) := by
  induction bs with
  | nil =>
      intro s r h1 h2
      exact ⟨s, by simp [burst, runFrom, writeAnnsFrom], h1, by simpa using h2⟩
  | cons p rest ih =>
      obtain ⟨dss, des, b, ass, aes⟩ := p
      intro s r h1 h2
      simp only [burst, runFrom]
      rw [decode_write_data s dss des b r h1 h2]
      dsimp only
      rw [decode_write_ack _ ass aes (by simpa using h1) (by simp)]
      dsimp only
      obtain ⟨s', hrun, hst, hreg⟩ :=
        ih { s with ss := ass, es := aes, reg := some (r + 1), needACK := false }
          (r + 1) (by simpa using h1) (by simp)
      rw [hrun]
      dsimp only
      refine ⟨s', ?_, hst, ?_⟩
      · simp [writeAnnsFrom]
      · rw [hreg]
        exact congrArg some (by simp; omega)

theorem readLoop (bs : List (Nat × Nat × Nat × Nat × Nat)) :
    ∀ (s : DecState) (r : Nat), s.state = Phase.READ_REGS → s.reg = some r →
      ∃ s', runFrom s (burst Cmd.DATA_READ bs) = some (s', readAnnsFrom r bs) ∧
        s'.state = Phase.READ_REGS ∧ s'.reg = some (r + bs.length) := by
  induction bs with
  | nil =>
      intro s r h1 h2
      exact ⟨s, by simp [burst, runFrom, readAnnsFrom], h1, by simpa using h2⟩
  | cons p rest ih =>
      obtain ⟨dss, des, b, ass, aes⟩ := p
      intro s r h1 h2
      simp only [burst, runFrom]
      rw [decode_read_data s dss des b r h1 h2]
      dsimp only
      rw [decode_read_ack _ ass aes (by simpa using h1) (by simp)]
      dsimp only
      obtain ⟨s', hrun, hst, hreg⟩ :=
        ih { s with ss := ass, es := aes, reg := some (r + 1), needACK := false }
          (r + 1) (by simpa using h1) (by simp)
      rw [hrun]
      dsimp only
      refine ⟨s', ?_, hst, ?_⟩
      · simp [readAnnsFrom]
      · rw [hreg]
        exact congrArg some (by simp; omega)

theorem decode_idle_no_start (s : DecState) (ss es : Nat) (c : Cmd)
    (hst : s.state = Phase.IDLE) (hc : c ≠ Cmd.START) :
    ∃ s', decode s ⟨ss, es, c⟩ = some (s', []) ∧ s'.state = Phase.IDLE := by
  cases c with
  | BITS spans => exact ⟨{ s with bits := spans }, rfl, by simpa using hst⟩
  | START => exact absurd rfl hc
  | _ => exact ⟨{ s with ss := ss, es := es }, by simp [decode, hst], by simpa using hst⟩

theorem idleRun (evs : List Event) :
    ∀ s : DecState, s.state = Phase.IDLE → (∀ e ∈ evs, e.cmd ≠ Cmd.START) →
      ∃ s', runFrom s evs = some (s', []) ∧ s'.state = Phase.IDLE := by
  induction evs with
  | nil => intro s h _; exact ⟨s, rfl, h⟩
  | cons e rest ih =>
      intro s h hall
      obtain ⟨ess, ees, c⟩ := e
      obtain ⟨s1, hd, hst1⟩ :=
        decode_idle_no_start s ess ees c h (hall _ (List.mem_cons_self _ _))
      obtain ⟨s', hrun, hst⟩ := ih s1 hst1 (fun e he => hall e (List.mem_cons_of_mem _ he))
      refine ⟨s', ?_, hst⟩
      simp [runFrom, hd, hrun]

theorem writeAnnsFrom_length (bs : List (Nat × Nat × Nat × Nat × Nat)) :
    ∀ r, (writeAnnsFrom r bs).length = bs.length := by
  induction bs with
  | nil => intro r; rfl
  | cons p rest ih =>
      obtain ⟨dss, des, b, ass, aes⟩ := p
      intro r
      simp [writeAnnsFrom, ih]

theorem readAnnsFrom_length (bs : List (Nat × Nat × Nat × Nat × Nat)) :
    ∀ r, (readAnnsFrom r bs).length = bs.length := by
  induction bs with
  | nil => intro r; rfl
  | cons p rest ih =>
      obtain ⟨dss, des, b, ass, aes⟩ := p
      intro r
      simp [readAnnsFrom, ih]

theorem writeAnnsFrom_cls (bs : List (Nat × Nat × Nat × Nat × Nat)) :
    ∀ r a, a ∈ writeAnnsFrom r bs → a.cls = ANN_REGISTER := by
  induction bs with
  | nil => intro r a ha; simp [writeAnnsFrom] at ha
  | cons p rest ih =>
      obtain ⟨dss, des, b, ass, aes⟩ := p
      intro r a ha
      simp only [writeAnnsFrom, List.mem_cons] at ha
      rcases ha with h | h
      · subst h; rfl
      · exact ih (r + 1) a h

theorem readAnnsFrom_cls (bs : List (Nat × Nat × Nat × Nat × Nat)) :
    ∀ r a, a ∈ readAnnsFrom r bs → a.cls = ANN_REGISTER := by
  induction bs with
  | nil => intro r a ha; simp [readAnnsFrom] at ha
  | cons p rest ih =>
      obtain ⟨dss, des, b, ass, aes⟩ := p
      intro r a ha
      simp only [readAnnsFrom, List.mem_cons] at ha
      rcases ha with h | h
      · subst h; rfl
      · exact ih (r + 1) a h

theorem writeAnnsFrom_filter (bs : List (Nat × Nat × Nat × Nat × Nat)) (r : Nat) :
    (writeAnnsFrom r bs).filter (fun a => a.cls == ANN_REGISTER) =
      writeAnnsFrom r bs := by
  refine List.filter_eq_self.mpr ?_
  intro a ha
  simp [writeAnnsFrom_cls bs r a ha]

theorem readAnnsFrom_filter (bs : List (Nat × Nat × Nat × Nat × Nat)) (r : Nat) :
    (readAnnsFrom r bs).filter (fun a => a.cls == ANN_REGISTER) =
      readAnnsFrom r bs := by
  refine List.filter_eq_self.mpr ?_
  intro a ha
  simp [readAnnsFrom_cls bs r a ha]

/-! ### Transaction preambles shared by the transaction theorems -/

/-- Start + matching address write + acknowledgement + register select +
acknowledgement, from a fresh decoder. -/
theorem write_preamble (addr a R t1 u1 t2 u2 t3 u3 t4 u4 t5 u5 : Nat)
    (ha : a >>> 1 = addr) :
    runFrom (initState addr)
        [⟨t1, u1, Cmd.START⟩, ⟨t2, u2, Cmd.ADDRESS_WRITE a⟩, ⟨t3, u3, Cmd.ACK⟩,
         ⟨t4, u4, Cmd.DATA_WRITE R⟩, ⟨t5, u5, Cmd.ACK⟩] =
      some (⟨Phase.WRITE_REGS, some R, none, [], false, t5, u5, t1, addr⟩,
        [⟨t1, u2, ANN_ADDRESS, ["Address (slave 0x" ++ hex2 addr ++ ")"]⟩,
         ⟨t4, u4, ANN_REGISTER, selectTexts R⟩]) := by
  cases hl : lookupReg R <;>
    simp [runFrom, decode, initState, reset, is_correct_chip, handle_ACK,
          setReg, putx, selectTexts, ha, hl]

/-- Start + matching address read + acknowledgement, from any idle state. -/
theorem read_preamble (a t1 u1 t2 u2 t3 u3 : Nat) (s : DecState)
    (hst : s.state = Phase.IDLE) (ha : a >>> 1 = s.address) :
    runFrom s [⟨t1, u1, Cmd.START⟩, ⟨t2, u2, Cmd.ADDRESS_READ a⟩,
               ⟨t3, u3, Cmd.ACK⟩] =
      some ({ s with state := Phase.READ_REGS, needACK := false,
                     ss := t3, es := u3, ss_block := t1 },
        [⟨t1, u2, ANN_ADDRESS, ["Address (slave 0x" ++ hex2 s.address ++ ")"]⟩]) := by
  simp [runFrom, decode, is_correct_chip, handle_ACK, putx, hst, ha]

/-! ### The claims -/

/-- C1: a write transaction on a fresh decoder — Start, matching address
write, ACK, register-select byte `R`, ACK, then `N` data bytes each
followed by an ACK, then Stop — emits exactly `N + 1` `Register`-class
records: the select for `R`, then one write per byte for consecutive
registers `R, R+1, …, R+N-1`, each with the catalog mnemonic when the
register is in `REGs` and an unknown-register text otherwise (the texts
are `selectTexts` / `writeTexts`); and the machine ends in `IDLE`. -/
theorem C1_write_burst (addr a R : Nat) (bs : List (Nat × Nat × Nat × Nat × Nat))
    (t1 u1 t2 u2 t3 u3 t4 u4 t5 u5 t6 u6 : Nat)
    (ha : a >>> 1 = addr) :
    ∃ s', runFrom (initState addr)
        ([⟨t1, u1, Cmd.START⟩, ⟨t2, u2, Cmd.ADDRESS_WRITE a⟩, ⟨t3, u3, Cmd.ACK⟩,
          ⟨t4, u4, Cmd.DATA_WRITE R⟩, ⟨t5, u5, Cmd.ACK⟩] ++
         (burst Cmd.DATA_WRITE bs ++ [⟨t6, u6, Cmd.STOP⟩])) =
      some (s',
        ⟨t1, u2, ANN_ADDRESS, ["Address (slave 0x" ++ hex2 addr ++ ")"]⟩ ::
        ⟨t4, u4, ANN_REGISTER, selectTexts R⟩ :: writeAnnsFrom R bs) ∧
      s'.state = Phase.IDLE ∧
      ((⟨t1, u2, ANN_ADDRESS, ["Address (slave 0x" ++ hex2 addr ++ ")"]⟩ ::
        ⟨t4, u4, ANN_REGISTER, selectTexts R⟩ :: writeAnnsFrom R bs).filter
          (fun an => an.cls == ANN_REGISTER)) =
        ⟨t4, u4, ANN_REGISTER, selectTexts R⟩ :: writeAnnsFrom R bs ∧
      ((⟨t1, u2, ANN_ADDRESS, ["Address (slave 0x" ++ hex2 addr ++ ")"]⟩ ::
        ⟨t4, u4, ANN_REGISTER, selectTexts R⟩ :: writeAnnsFrom R bs).filter
          (fun an => an.cls == ANN_REGISTER)).length = bs.length + 1 := by
  rw [runFrom_append, write_preamble addr a R t1 u1 t2 u2 t3 u3 t4 u4 t5 u5 ha]
  dsimp only
  rw [runFrom_append]
  obtain ⟨s6, hrun6, hst6, hreg6⟩ :=
    writeLoop bs ⟨Phase.WRITE_REGS, some R, none, [], false, t5, u5, t1, addr⟩
      R rfl rfl
  rw [hrun6]
  dsimp only
  simp only [runFrom]
  rw [decode_write_stop s6 t6 u6 hst6]
  dsimp only
  have hfil : ((⟨t1, u2, ANN_ADDRESS, ["Address (slave 0x" ++ hex2 addr ++ ")"]⟩ ::
      ⟨t4, u4, ANN_REGISTER, selectTexts R⟩ :: writeAnnsFrom R bs).filter
        (fun an => an.cls == ANN_REGISTER)) =
      ⟨t4, u4, ANN_REGISTER, selectTexts R⟩ :: writeAnnsFrom R bs := by
    rw [List.filter_cons_of_neg (by simp [ANN_ADDRESS, ANN_REGISTER]), List.filter_cons_of_pos (by rfl),
        writeAnnsFrom_filter bs R]
  refine ⟨{ s6 with ss := t6, es := u6, state := Phase.IDLE }, ?_, rfl, hfil, ?_⟩
  · simp
  · rw [hfil]
    simp [writeAnnsFrom_length bs R]

theorem C1_write_burst_witness :
    ∃ s', runFrom (initState 0x28)
        ([⟨0, 1, Cmd.START⟩, ⟨2, 3, Cmd.ADDRESS_WRITE 0x50⟩, ⟨4, 5, Cmd.ACK⟩,
          ⟨6, 7, Cmd.DATA_WRITE 0x11⟩, ⟨8, 9, Cmd.ACK⟩] ++
         (burst Cmd.DATA_WRITE [(10, 11, 0xAA, 12, 13)] ++ [⟨14, 15, Cmd.STOP⟩])) =
      some (s',
        [⟨0, 3, ANN_ADDRESS, ["Address (slave 0x28)"]⟩,
         ⟨6, 7, ANN_REGISTER, ["Register CC_STATUS", "CC_STATUS"]⟩,
         ⟨10, 11, ANN_REGISTER, ["Write CC_STATUS", "CC_STATUS"]⟩]) ∧
      s'.state = Phase.IDLE ∧
      (([⟨0, 3, ANN_ADDRESS, ["Address (slave 0x28)"]⟩,
         ⟨6, 7, ANN_REGISTER, ["Register CC_STATUS", "CC_STATUS"]⟩,
         ⟨10, 11, ANN_REGISTER, ["Write CC_STATUS", "CC_STATUS"]⟩] : List Ann).filter
          (fun an => an.cls == ANN_REGISTER)) =
        [⟨6, 7, ANN_REGISTER, ["Register CC_STATUS", "CC_STATUS"]⟩,
         ⟨10, 11, ANN_REGISTER, ["Write CC_STATUS", "CC_STATUS"]⟩] ∧
      (([⟨0, 3, ANN_ADDRESS, ["Address (slave 0x28)"]⟩,
         ⟨6, 7, ANN_REGISTER, ["Register CC_STATUS", "CC_STATUS"]⟩,
         ⟨10, 11, ANN_REGISTER, ["Write CC_STATUS", "CC_STATUS"]⟩] : List Ann).filter
          (fun an => an.cls == ANN_REGISTER)).length = 1 + 1 :=
  C1_write_burst 0x28 0x50 0x11 [(10, 11, 0xAA, 12, 13)]
    0 1 2 3 4 5 6 7 8 9 14 15 rfl

/-- C5: a read transaction — Start, matching address read, ACK, then `M`
data-read bytes each followed by an ACK, then NACK — entered with the
register pointer holding `r`, emits exactly `M` `Register`-class read
records for consecutive registers `r, r+1, …, r+M-1` and ends in `IDLE`;
the NACK itself emits nothing (normal termination, not an error: the
emitted list contains no `Error`-class record). -/
theorem C5_read_burst (a r : Nat) (s : DecState)
    (bs : List (Nat × Nat × Nat × Nat × Nat)) (t1 u1 t2 u2 t3 u3 t6 u6 : Nat)
    (hst : s.state = Phase.IDLE) (hr : s.reg = some r)
    (ha : a >>> 1 = s.address) :
    ∃ s', runFrom s
        ([⟨t1, u1, Cmd.START⟩, ⟨t2, u2, Cmd.ADDRESS_READ a⟩, ⟨t3, u3, Cmd.ACK⟩] ++
         (burst Cmd.DATA_READ bs ++ [⟨t6, u6, Cmd.NACK⟩])) =
      some (s',
        ⟨t1, u2, ANN_ADDRESS, ["Address (slave 0x" ++ hex2 s.address ++ ")"]⟩ ::
          readAnnsFrom r bs) ∧
      s'.state = Phase.IDLE ∧
      ((⟨t1, u2, ANN_ADDRESS, ["Address (slave 0x" ++ hex2 s.address ++ ")"]⟩ ::
          readAnnsFrom r bs).filter (fun an => an.cls == ANN_REGISTER)) =
        readAnnsFrom r bs ∧
      ((⟨t1, u2, ANN_ADDRESS, ["Address (slave 0x" ++ hex2 s.address ++ ")"]⟩ ::
          readAnnsFrom r bs).filter (fun an => an.cls == ANN_REGISTER)).length =
        bs.length := by
  rw [runFrom_append, read_preamble a t1 u1 t2 u2 t3 u3 s hst ha]
  dsimp only
  rw [runFrom_append]
  obtain ⟨s6, hrun6, hst6, hreg6⟩ :=
    readLoop bs { s with state := Phase.READ_REGS, needACK := false,
                         ss := t3, es := u3, ss_block := t1 } r rfl hr
  rw [hrun6]
  dsimp only
  simp only [runFrom]
  rw [decode_read_nack s6 t6 u6 hst6]
  dsimp only
  have hfil : ((⟨t1, u2, ANN_ADDRESS,
      ["Address (slave 0x" ++ hex2 s.address ++ ")"]⟩ ::
        readAnnsFrom r bs).filter (fun an => an.cls == ANN_REGISTER)) =
      readAnnsFrom r bs := by
    rw [List.filter_cons_of_neg (by simp [ANN_ADDRESS, ANN_REGISTER]),
        readAnnsFrom_filter bs r]
  refine ⟨{ s6 with ss := t6, es := u6, state := Phase.IDLE, needACK := false },
    ?_, rfl, hfil, ?_⟩
  · simp
  · rw [hfil]
    simp [readAnnsFrom_length bs r]

theorem C5_read_burst_witness :
    ∃ s', runFrom { initState 0x28 with reg := some 0x0D }
        ([⟨0, 1, Cmd.START⟩, ⟨2, 3, Cmd.ADDRESS_READ 0x51⟩, ⟨4, 5, Cmd.ACK⟩] ++
         (burst Cmd.DATA_READ [(10, 11, 0, 12, 13), (14, 15, 0, 16, 17)] ++
          [⟨18, 19, Cmd.NACK⟩])) =
      some (s',
        [⟨0, 3, ANN_ADDRESS, ["Address (slave 0x28)"]⟩,
         ⟨10, 11, ANN_REGISTER, ["Read PORT_STATUS_0", "PORT_STATUS_0"]⟩,
         ⟨14, 15, ANN_REGISTER, ["Read PORT_STATUS_1", "PORT_STATUS_1"]⟩]) ∧
      s'.state = Phase.IDLE ∧
      (([⟨0, 3, ANN_ADDRESS, ["Address (slave 0x28)"]⟩,
         ⟨10, 11, ANN_REGISTER, ["Read PORT_STATUS_0", "PORT_STATUS_0"]⟩,
         ⟨14, 15, ANN_REGISTER, ["Read PORT_STATUS_1", "PORT_STATUS_1"]⟩] : List Ann).filter
          (fun an => an.cls == ANN_REGISTER)) =
        [⟨10, 11, ANN_REGISTER, ["Read PORT_STATUS_0", "PORT_STATUS_0"]⟩,
         ⟨14, 15, ANN_REGISTER, ["Read PORT_STATUS_1", "PORT_STATUS_1"]⟩] ∧
      (([⟨0, 3, ANN_ADDRESS, ["Address (slave 0x28)"]⟩,
         ⟨10, 11, ANN_REGISTER, ["Read PORT_STATUS_0", "PORT_STATUS_0"]⟩,
         ⟨14, 15, ANN_REGISTER, ["Read PORT_STATUS_1", "PORT_STATUS_1"]⟩] : List Ann).filter
          (fun an => an.cls == ANN_REGISTER)).length = 2 :=
  C5_read_burst 0x51 0x0D { initState 0x28 with reg := some 0x0D }
    [(10, 11, 0, 12, 13), (14, 15, 0, 16, 17)] 0 1 2 3 4 5 18 19 rfl rfl (by decide)

/-- C2 (refuted on the code, claim upheld as spec intent): a matching
address-read phase on a freshly reset decoder followed by a data-read
byte crashes, because `handle_read_reg` formats `'%02X' % None` and then
evaluates `None + 1` while `self.reg` is still `None` — the call raises
`TypeError` instead of completing with error records. -/
theorem C2_read_unset_pointer_crash :
    runFrom (initState 0x28)
      [⟨0, 1, Cmd.START⟩, ⟨2, 3, Cmd.ADDRESS_READ 0x51⟩, ⟨4, 5, Cmd.ACK⟩,
       ⟨6, 7, Cmd.DATA_READ 0x00⟩] = none := by
  rfl

/-- C3, counterexample: after Start, matching address write and the
expected ACK, the machine sits in the register-select phase with the
acknowledgement flag unarmed; a second ACK emits the error record but
also moves the phase to `IDLE` — the claim said the phase is left
unchanged. -/
theorem C3_counterexample_unexpected_ack :
    (runFrom (initState 0x28)
        [⟨0, 1, Cmd.START⟩, ⟨2, 3, Cmd.ADDRESS_WRITE 0x50⟩,
         ⟨4, 5, Cmd.ACK⟩]).map (fun p => (p.1.state, p.1.needACK)) =
      some (Phase.GET_REG_ADDR, false) ∧
    (runFrom (initState 0x28)
        [⟨0, 1, Cmd.START⟩, ⟨2, 3, Cmd.ADDRESS_WRITE 0x50⟩,
         ⟨4, 5, Cmd.ACK⟩, ⟨6, 7, Cmd.ACK⟩]).map
          (fun p => (p.1.state, p.2)) =
      some (Phase.IDLE,
        [⟨0, 3, ANN_ADDRESS, ["Address (slave 0x28)"]⟩,
         ⟨6, 7, ANN_ERROR, ["Unxpected ACK"]⟩]) :=
  ⟨rfl, rfl⟩

/-- C3, amended: an ACK arriving while the flag is unarmed in the
register-select, writing or reading phase emits the `'Unxpected ACK'`
error record and resets the phase to `IDLE` (via `handle_ACK` returning
`False` and the caller assigning `self.state = "IDLE"`). -/
theorem C3_unexpected_ack_amended (s : DecState) (ss es : Nat)
    (hst : s.state = Phase.GET_REG_ADDR ∨ s.state = Phase.WRITE_REGS ∨
           s.state = Phase.READ_REGS)
    (hna : s.needACK = false) :
    decode s ⟨ss, es, Cmd.ACK⟩ =
      some ({ s with ss := ss, es := es, state := Phase.IDLE },
            [⟨ss, es, ANN_ERROR, ["Unxpected ACK"]⟩]) := by
  rcases hst with h | h | h <;> simp [decode, handle_ACK, putx, h, hna]

theorem C3_unexpected_ack_amended_witness :
    decode { initState 0x28 with state := Phase.WRITE_REGS } ⟨4, 5, Cmd.ACK⟩ =
      some ({ initState 0x28 with state := Phase.IDLE, ss := 4, es := 5 },
            [⟨4, 5, ANN_ERROR, ["Unxpected ACK"]⟩]) :=
  C3_unexpected_ack_amended { initState 0x28 with state := Phase.WRITE_REGS }
    4 5 (Or.inr (Or.inl rfl)) rfl

/-- C4, counterexample: a wrong-address address-write event delivered in
the (reachable: initial) `IDLE` state emits zero records, not exactly
one — the original claim quantified over every reachable state. -/
theorem C4_counterexample_wrong_address_idle :
    decode (initState 0x28) ⟨0, 1, Cmd.ADDRESS_WRITE 0x00⟩ =
      some ({ initState 0x28 with ss := 0, es := 1 }, []) ∧
    (0x00 >>> 1 : Nat) ≠ 0x28 :=
  ⟨rfl, by decide⟩

/-- C4, amended: in the address phase (`GET SLAVE ADDR`), an
address-write or address-read event whose top 7 bits differ from the
configured target emits exactly one informational `Address` record
(`'Ignoring wrong addr …'`, spanning `ss_block .. es`) and the machine
returns to `IDLE`. -/
theorem C4_wrong_address_amended (s : DecState) (ss es b : Nat) (c : Cmd)
    (hst : s.state = Phase.GET_SLAVE_ADDR)
    (hc : c = Cmd.ADDRESS_WRITE b ∨ c = Cmd.ADDRESS_READ b)
    (hb : b >>> 1 ≠ s.address) :
    decode s ⟨ss, es, c⟩ =
      some ({ s with ss := ss, es := es, state := Phase.IDLE },
        [⟨s.ss_block, es, ANN_ADDRESS,
          ["Ignoring wrong addr (slave 0x" ++ hex2 (b >>> 1) ++ ")"]⟩]) := by
  rcases hc with h | h <;> subst h <;> simp [decode, is_correct_chip, hst, hb]

theorem C4_wrong_address_amended_witness :
    decode { initState 0x28 with state := Phase.GET_SLAVE_ADDR }
        ⟨2, 3, Cmd.ADDRESS_WRITE 0x00⟩ =
      some ({ initState 0x28 with state := Phase.IDLE, ss := 2, es := 3 },
        [⟨0, 3, ANN_ADDRESS, ["Ignoring wrong addr (slave 0x00)"]⟩]) :=
  C4_wrong_address_amended { initState 0x28 with state := Phase.GET_SLAVE_ADDR }
    2 3 0x00 (Cmd.ADDRESS_WRITE 0x00) rfl (Or.inl rfl) (by decide)

/-- C6: across every successful step, the register pointer obeys
`regAfter` — bumped by exactly one on a data-write byte in the writing
phase or a data-read byte in the reading phase, set by a register-select
data write, and untouched by every other event; and a full `reset`
clears it. -/
theorem C6_register_pointer :
    (∀ (s : DecState) (ev : Event) (s' : DecState) (anns : List Ann),
        decode s ev = some (s', anns) → s'.reg = regAfter s.state ev.cmd s.reg) ∧
    (∀ s : DecState, (reset s).reg = none) := by
  constructor
  · intro s ev s' anns h
    obtain ⟨st, rg, wr, bt, na, pss, pes, psb, ad⟩ := s
    obtain ⟨ess, ees, c⟩ := ev
    cases st <;> cases c <;> cases na <;> rcases rg with _ | r <;>
      simp [decode, handle_ACK, handle_write_reg, handle_read_reg, setReg,
            is_correct_chip, putx] at h <;>
      (repeat' split at h) <;>
      (try rcases h with ⟨rfl, rfl⟩) <;>
      simp [regAfter]
  · intro s
    rfl

theorem C6_register_pointer_witness :
    decode { initState 0x28 with state := Phase.WRITE_REGS, reg := some 5 }
        ⟨0, 1, Cmd.DATA_WRITE 7⟩ =
      some ({ initState 0x28 with state := Phase.WRITE_REGS, reg := some 6,
                                  needACK := true, ss := 0, es := 1 },
        [⟨0, 1, ANN_REGISTER, ["Write Unknown reg 05", "Unknown"]⟩]) ∧
    ({ initState 0x28 with state := Phase.WRITE_REGS, reg := some 6,
                           needACK := true, ss := 0, es := 1 } : DecState).reg =
      regAfter Phase.WRITE_REGS (Cmd.DATA_WRITE 7) (some 5) :=
  ⟨rfl,
   C6_register_pointer.1
     { initState 0x28 with state := Phase.WRITE_REGS, reg := some 5 }
     ⟨0, 1, Cmd.DATA_WRITE 7⟩ _ _ rfl⟩

/-- C7: from a fresh decoder, an event sequence containing no Start
condition is consumed entirely in `IDLE` and emits nothing. -/
theorem C7_no_start_silent (address : Nat) (evs : List Event)
    (h : ∀ e ∈ evs, e.cmd ≠ Cmd.START) :
    ∃ s', runFrom (initState address) evs = some (s', []) ∧
      s'.state = Phase.IDLE :=
  idleRun evs (initState address) rfl h

theorem C7_no_start_silent_witness :
    ∃ s', runFrom (initState 0x28)
        [⟨0, 1, Cmd.ACK⟩, ⟨2, 3, Cmd.DATA_WRITE 5⟩,
         ⟨4, 5, Cmd.ADDRESS_WRITE 0x50⟩,
         ⟨6, 7, Cmd.BITS [(1, 6, 7)]⟩, ⟨8, 9, Cmd.STOP⟩] = some (s', []) ∧
      s'.state = Phase.IDLE :=
  C7_no_start_silent 0x28 _ (by decide)

/-- C8: the decoder is deterministic — two freshly reset decoders with
the same configured address, fed the identical event sequence, produce
identical results (the embedding is a pure function of the state, and the
source keeps no state outside the attributes modelled in `DecState`). -/
theorem C8_deterministic (address : Nat) (evs : List Event) (s1 s2 : DecState)
    (h1 : s1 = initState address) (h2 : s2 = initState address) :
    runFrom s1 evs = runFrom s2 evs := by
  rw [h1, h2]

theorem C8_deterministic_witness :
    runFrom (initState 0x28)
        [⟨0, 1, Cmd.START⟩, ⟨2, 3, Cmd.ADDRESS_WRITE 0x50⟩, ⟨4, 5, Cmd.ACK⟩] =
      runFrom (initState 0x28)
        [⟨0, 1, Cmd.START⟩, ⟨2, 3, Cmd.ADDRESS_WRITE 0x50⟩, ⟨4, 5, Cmd.ACK⟩] :=
  C8_deterministic 0x28 _ _ _ rfl rfl

/-- C9, counterexample: a `BITS` event caching per-bit spans
(MSB starting at sample 41, LSB ending at sample 80) arrives before the
register-select data write whose own span is 40..90; the select record is
emitted over 40..90 — the byte event's span — not over 41..80 as the
claim requires (`putd` exists in the source but is never called). -/
theorem C9_counterexample_select_span :
    (runFrom (initState 0x28)
        [⟨0, 1, Cmd.START⟩, ⟨2, 3, Cmd.ADDRESS_WRITE 0x50⟩, ⟨4, 5, Cmd.ACK⟩,
         ⟨6, 95, Cmd.BITS [(1, 41, 45), (0, 46, 50), (0, 51, 55), (1, 56, 60),
                           (0, 61, 65), (0, 66, 70), (0, 71, 75), (1, 76, 80)]⟩,
         ⟨40, 90, Cmd.DATA_WRITE 0x11⟩]).map Prod.snd =
      some [⟨0, 3, ANN_ADDRESS, ["Address (slave 0x28)"]⟩,
            ⟨40, 90, ANN_REGISTER, ["Register CC_STATUS", "CC_STATUS"]⟩] ∧
    ((40, 90) : Nat × Nat) ≠ (41, 80) :=
  ⟨rfl, by decide⟩

/-- C9, amended: the register-select record is always emitted over the
data-write event's own span `ss..es` (via `putx`), for every state of the
cached bit-span list — the cached bit timing is never used for record
placement. -/
theorem C9_select_span_amended (s : DecState) (ss es b : Nat)
    (hst : s.state = Phase.GET_REG_ADDR) :
    decode s ⟨ss, es, Cmd.DATA_WRITE b⟩ =
      some ({ s with ss := ss, es := es, reg := some b,
                     state := Phase.WRITE_REGS, needACK := true },
            [⟨ss, es, ANN_REGISTER, selectTexts b⟩]) :=
  decode_getreg_data s ss es b hst

theorem C9_select_span_amended_witness :
    decode { initState 0x28 with state := Phase.GET_REG_ADDR,
                                 bits := [(1, 41, 45), (1, 76, 80)] }
        ⟨40, 90, Cmd.DATA_WRITE 0x11⟩ =
      some ({ initState 0x28 with state := Phase.WRITE_REGS,
                                  bits := [(1, 41, 45), (1, 76, 80)],
                                  reg := some 0x11,
                                  needACK := true, ss := 40, es := 90 },
            [⟨40, 90, ANN_REGISTER, ["Register CC_STATUS", "CC_STATUS"]⟩]) :=
  C9_select_span_amended
    { initState 0x28 with state := Phase.GET_REG_ADDR,
                          bits := [(1, 41, 45), (1, 76, 80)] } 40 90 0x11 rfl

/-- C10: a `BITS` event only replaces the cached bit-span list and emits
nothing: the equation pins the whole successor state as `s` with only
`bits` overwritten, so the phase, the register pointer, the
acknowledgement flag and the stored `ss`/`es` span are all unchanged, in
every state. -/
theorem C10_bits_frame (s : DecState) (ss es : Nat)
    (spans : List (Nat × Nat × Nat)) :
    decode s ⟨ss, es, Cmd.BITS spans⟩ = some ({ s with bits := spans }, []) :=
  rfl

end STUSB4500
